import Mathlib

/-!
Shallow embedding of `git2_auth` (files `src/auth_handler.rs`, `src/lib.rs`).

The repository implements a stateful credential-negotiation strategy for
`git2` remote-credential callbacks.  We embed the data model and the
operations faithfully:

* `git2::Config` is an opaque read-only handle; we model it by a type
  parameter `Cfg`.
* `git2::CredentialType` is a bitflag set; we model it as a structure of
  `Bool` fields, one per bit that `git2` defines, and `allowed.contains(X)`
  for a single flag `X` is the corresponding field read.
* `git2::Cred` values are produced by the collaborators
  `git2::Cred::username` and `git2::Cred::ssh_key_from_agent`; we model a
  credential by a constructor recording which collaborator produced it and
  with which username.
* `git2::Error::from_str(msg)` is modelled by the message string.
* Rust's `unimplemented!(msg)` macro panics with the message
  `"not implemented: " ++ msg`; we model the panic as an explicit third
  outcome (`CallResult.panicked`) carrying that full message, so that
  panicking is distinguishable from returning an error value.
* `VecDeque` with `pop_front`/`push_back` is modelled by `List` consumed
  from the head.
* Mutation of `&mut self` is modelled by explicit state passing: each
  handler returns the result paired with the updated handler.
-/

namespace Git2Auth

/-- Rust source: `type Username = String;` -/
abbrev Username := String

/-- Rust source: `type GitURL = String;` -/
abbrev GitURL := String

/-- Rust source: `const USERNAME_EMPTY: &str = "";` -/
def USERNAME_EMPTY : Username := ""

/-- Rust source: `const USERNAME_GIT: &str = "git";` -/
def USERNAME_GIT : Username := "git"

/-- `git2::CredentialType` bitflags, one field per bit defined by `git2`
(`USER_PASS_PLAINTEXT`, `SSH_KEY`, `SSH_CUSTOM`, `DEFAULT`,
`SSH_INTERACTIVE`, `USERNAME`, `SSH_MEMORY`).  `allowed.contains(FLAG)`
for a single flag is the corresponding field. -/
structure CredentialType where
  user_pass_plaintext : Bool
  ssh_key : Bool
  ssh_custom : Bool
  ssh_default : Bool
  ssh_interactive : Bool
  username : Bool
  ssh_memory : Bool
deriving DecidableEq, Repr

/-- `HostSSHContext { url: GitURL }` from the source. -/
structure HostSSHContext where
  url : GitURL
deriving DecidableEq

/-- `FileSSHContext { paths: VecDeque<PathBuf>, password: String }` from the
source; a `PathBuf` is modelled by its string. -/
structure FileSSHContext where
  paths : List String
  password : String
deriving DecidableEq

/-- `enum SSHTrialMethod { Agent, Host(HostSSHContext), File(FileSSHContext) }`. -/
inductive SSHTrialMethod where
  | Agent : SSHTrialMethod
  | Host : HostSSHContext → SSHTrialMethod
  | File : FileSSHContext → SSHTrialMethod
deriving DecidableEq

/-- A `git2::Cred` value, tagged by the collaborator that produced it:
`git2::Cred::username(u)` or `git2::Cred::ssh_key_from_agent(u)`. -/
inductive Cred where
  | username : Username → Cred
  | ssh_key_from_agent : Username → Cred
deriving DecidableEq

/-- Outcome of one callback-handling call: `Ok(cred)`, `Err(git2::Error::from_str msg)`,
or a Rust panic with the given message (from `unimplemented!`). -/
inductive CallResult where
  | ok : Cred → CallResult
  | err : String → CallResult
  | panicked : String → CallResult
deriving DecidableEq

/-- `struct AuthHandler` from the source; `Cfg` stands for the opaque
`git2::Config` handle. -/
structure AuthHandler (Cfg : Type) where
  config : Cfg
  usernames : List Username
  ssh_trial_methods : List SSHTrialMethod
  callback_url : Option GitURL
  callback_username : Option Username

instance {Cfg : Type} [DecidableEq Cfg] : DecidableEq (AuthHandler Cfg) := by
  intro a b
  cases a
  cases b
  simp only [AuthHandler.mk.injEq]
  exact inferInstance

namespace HostSSHContext

/-- `HostSSHContext::new`. -/
def new (url : GitURL) : HostSSHContext := ⟨url⟩

end HostSSHContext

namespace FileSSHContext

/-- `FileSSHContext::new`. -/
def new (paths : List String) (password : String) : FileSSHContext := ⟨paths, password⟩

end FileSSHContext

namespace SSHTrialMethod

/-- `SSHTrialMethod::handle_callback` (src/auth_handler.rs lines 181-198):
Agent requires a callback username and asks the agent collaborator for a
credential with it; Host and File are `unimplemented!` stubs that panic. -/
def handle_callback (m : SSHTrialMethod) ( _callback_url : Option GitURL)
    (callback_username : Option Username) : CallResult :=
  match m with
  | .Agent =>
    match callback_username with
    | none => .err "username must be provided with SSH_KEY callback"
    | some u => .ok (.ssh_key_from_agent u)
  | .Host _ => .panicked "not implemented: SSH trial with host is not implemented"
  | .File _ => .panicked "not implemented: SSH trial with file is not implemented"

end SSHTrialMethod

namespace AuthHandler

variable {Cfg : Type}

/-- `AuthHandler::new`. -/
def new (config : Cfg) (usernames : List Username)
    (ssh_trial_methods : List SSHTrialMethod) (callback_url : Option GitURL)
    (callback_username : Option Username) : AuthHandler Cfg :=
  ⟨config, usernames, ssh_trial_methods, callback_url, callback_username⟩

/-- `AuthHandler::default_with_config`.  The read of the process environment
variable `USER` (`env::var("USER")`, an external collaborator read once at
construction) is passed in as `env_user : Option Username`: `some u` when the
variable resolves to `u`, `none` when it is unset. -/
def default_with_config (config : Cfg) (env_user : Option Username) :
    AuthHandler Cfg :=
  let usernames :=
    [USERNAME_EMPTY, USERNAME_GIT] ++ (match env_user with
      | some env_username => [env_username]
      | none => [])
  new config usernames [SSHTrialMethod.Agent] none none

/-- `AuthHandler::get_next_username`: `self.usernames.pop_front()`. -/
def get_next_username (h : AuthHandler Cfg) :
    Option Username × AuthHandler Cfg :=
  match h.usernames with
  | [] => (none, h)
  | u :: rest => (some u, { h with usernames := rest })

/-- `AuthHandler::get_next_ssh_trial_method`: `self.ssh_trial_methods.pop_front()`. -/
def get_next_ssh_trial_method (h : AuthHandler Cfg) :
    Option SSHTrialMethod × AuthHandler Cfg :=
  match h.ssh_trial_methods with
  | [] => (none, h)
  | m :: rest => (some m, { h with ssh_trial_methods := rest })

/-- `AuthHandler::handle_username_callback` (lines 154-159): pop the next
username; if the queue is empty return
`Err("tried all possible usernames for the callback")`, otherwise return
`git2::Cred::username(&username)`. -/
def handle_username_callback (h : AuthHandler Cfg) :
    CallResult × AuthHandler Cfg :=
  match h.get_next_username with
  | (none, h') => (.err "tried all possible usernames for the callback", h')
  | (some u, h') => (.ok (.username u), h')

/-- `AuthHandler::handle_ssh_callback` (lines 169-175): pop the next SSH trial
method; if the queue is empty return
`Err("no ssh handler present for authentication")`, otherwise dispatch to
`SSHTrialMethod::handle_callback` with the recorded url and username. -/
def handle_ssh_callback (h : AuthHandler Cfg) :
    CallResult × AuthHandler Cfg :=
  match h.get_next_ssh_trial_method with
  | (none, h') => (.err "no ssh handler present for authentication", h')
  | (some m, h') =>
    (m.handle_callback h'.callback_url h'.callback_username, h')

/-- `AuthHandler::handle_callback` (lines 114-129): record the callback's
username and url into the handler state, then dispatch: `USERNAME` callbacks
to `handle_username_callback`, else `SSH_KEY` callbacks to
`handle_ssh_callback`, else `unimplemented!("user-pass authentication implemented")`
(a panic; its full Rust panic message carries the `not implemented: ` prefix). -/
def handle_callback (h : AuthHandler Cfg) (url : GitURL)
    (username : Option Username) (allowed : CredentialType) :
    CallResult × AuthHandler Cfg :=
  let h := { h with callback_username := username, callback_url := some url }
  if allowed.username then
    h.handle_username_callback
  else if allowed.ssh_key then
    h.handle_ssh_callback
  else
    (.panicked "not implemented: user-pass authentication implemented", h)

/-- The state update performed by the first two statements of
`handle_callback` (lines 120-121) before dispatching. -/
def record_callback (h : AuthHandler Cfg) (url : GitURL)
    (username : Option Username) : AuthHandler Cfg :=
  { h with callback_username := username, callback_url := some url }

end AuthHandler

/-! ## Helper lemmas -/

/-- `handle_callback` recorded as a case analysis: `USERNAME` branch, `SSH_KEY`
branch, or the `unimplemented!` panic. -/
theorem handle_callback_cases {Cfg : Type} (h : AuthHandler Cfg) (url : GitURL)
    (uname : Option Username) (allowed : CredentialType) :
    h.handle_callback url uname allowed
      = if allowed.username then (h.record_callback url uname).handle_username_callback
        else if allowed.ssh_key then (h.record_callback url uname).handle_ssh_callback
        else (.panicked "not implemented: user-pass authentication implemented",
              h.record_callback url uname) := by
  rfl

/-- `record_callback` only writes the two callback fields. -/
theorem record_callback_fields {Cfg : Type} (h : AuthHandler Cfg) (url : GitURL)
    (uname : Option Username) :
    (h.record_callback url uname).config = h.config ∧
    (h.record_callback url uname).usernames = h.usernames ∧
    (h.record_callback url uname).ssh_trial_methods = h.ssh_trial_methods ∧
    (h.record_callback url uname).callback_url = some url ∧
    (h.record_callback url uname).callback_username = uname := by
  simp [AuthHandler.record_callback]

/-- `handle_username_callback` as an explicit case split on the username queue. -/
theorem handle_username_callback_cases {Cfg : Type} (h : AuthHandler Cfg) :
    h.handle_username_callback
      = match h.usernames with
        | [] => (.err "tried all possible usernames for the callback", h)
        | u :: rest => (.ok (.username u), { h with usernames := rest }) := by
  cases hl : h.usernames <;>
    simp [AuthHandler.handle_username_callback, AuthHandler.get_next_username, hl]

/-- `handle_ssh_callback` as an explicit case split on the SSH method queue. -/
theorem handle_ssh_callback_cases {Cfg : Type} (h : AuthHandler Cfg) :
    h.handle_ssh_callback
      = match h.ssh_trial_methods with
        | [] => (.err "no ssh handler present for authentication", h)
        | m :: rest =>
          (m.handle_callback h.callback_url h.callback_username,
           { h with ssh_trial_methods := rest }) := by
  cases hl : h.ssh_trial_methods <;>
    simp [AuthHandler.handle_ssh_callback, AuthHandler.get_next_ssh_trial_method, hl]

/-- With a non-empty SSH queue, `handle_ssh_callback` never produces the
user-pass `unimplemented!` panic: every outcome of the SSH trial is an agent
credential, a missing-username error, or one of the host/file
`not implemented` panics, whose messages all differ from the user-pass one. -/
theorem handle_ssh_callback_ne_user_pass_panic {Cfg : Type} (h : AuthHandler Cfg)
    (hne : h.ssh_trial_methods ≠ []) :
    (h.handle_ssh_callback).1
      ≠ CallResult.panicked "not implemented: user-pass authentication implemented" := by
  rw [handle_ssh_callback_cases]
  cases hl : h.ssh_trial_methods with
  | nil => exact absurd hl hne
  | cons m rest =>
    cases m with
    | Agent =>
      cases h.callback_username <;> simp [SSHTrialMethod.handle_callback]
    | Host ctx => simp [SSHTrialMethod.handle_callback]
    | File ctx => simp [SSHTrialMethod.handle_callback]

/-! ## Claim theorems -/

/-- C1: dispatch in `handle_callback` follows a fixed priority checked in the
same order every call: if `allowed` contains `USERNAME` the username trial is
chosen; otherwise, if it contains `SSH_KEY`, the SSH trial is chosen.  In
particular, whenever `allowed` contains both `SSH_KEY` and
`USER_PASS_PLAINTEXT` (and the higher-priority `USERNAME` branch does not
match) and the SSH queue is non-empty, the SSH sub-strategy is chosen and the
user-pass branch (the code's stand-in for a plaintext helper) is never
reached. -/
theorem dispatch_priority_fixed {Cfg : Type} (h : AuthHandler Cfg) (url : GitURL)
    (uname : Option Username) (allowed : CredentialType) :
    (allowed.username = true →
      h.handle_callback url uname allowed
        = (h.record_callback url uname).handle_username_callback) ∧
    (allowed.username = false → allowed.ssh_key = true →
      h.handle_callback url uname allowed
        = (h.record_callback url uname).handle_ssh_callback) ∧
    (allowed.username = false → allowed.ssh_key = true →
      allowed.user_pass_plaintext = true → h.ssh_trial_methods ≠ [] →
      h.handle_callback url uname allowed
          = (h.record_callback url uname).handle_ssh_callback ∧
      (h.handle_callback url uname allowed).1
          ≠ CallResult.panicked "not implemented: user-pass authentication implemented") := by
  refine ⟨fun hu => ?_, fun hu hs => ?_, fun hu hs _hp hne => ⟨?_, ?_⟩⟩
  · rw [handle_callback_cases, if_pos hu]
  · rw [handle_callback_cases, if_neg (by simp [hu]), if_pos hs]
  · rw [handle_callback_cases, if_neg (by simp [hu]), if_pos hs]
  · rw [handle_callback_cases, if_neg (by simp [hu]), if_pos hs]
    exact handle_ssh_callback_ne_user_pass_panic _
      (by simpa [AuthHandler.record_callback] using hne)

/-- Witness for C1 at concrete inputs: a `USERNAME` call goes to the username
trial; a `\x7bSSH_KEY, USER_PASS_PLAINTEXT\x7d` call with non-empty SSH queue goes
to the SSH trial and does not hit the user-pass panic. -/
theorem dispatch_priority_fixed_witness :
    ((AuthHandler.new () ["a"] [SSHTrialMethod.Agent] none none).handle_callback
        "url" none ⟨false, false, false, false, false, true, false⟩
      = ((AuthHandler.new () ["a"] [SSHTrialMethod.Agent] none none).record_callback
          "url" none).handle_username_callback) ∧
    ((AuthHandler.new () ["a"] [SSHTrialMethod.Agent] none none).handle_callback
        "url" (some "alice") ⟨true, true, false, false, false, false, false⟩
      = ((AuthHandler.new () ["a"] [SSHTrialMethod.Agent] none none).record_callback
          "url" (some "alice")).handle_ssh_callback) ∧
    ((AuthHandler.new () ["a"] [SSHTrialMethod.Agent] none none).handle_callback
        "url" (some "alice") ⟨true, true, false, false, false, false, false⟩).1
      ≠ CallResult.panicked "not implemented: user-pass authentication implemented" :=
  ⟨(dispatch_priority_fixed _ _ _ _).1 rfl,
   (dispatch_priority_fixed _ _ _ _).2.1 rfl rfl,
   ((dispatch_priority_fixed (AuthHandler.new () ["a"] [SSHTrialMethod.Agent] none none)
      "url" (some "alice") ⟨true, true, false, false, false, false, false⟩).2.2
      rfl rfl rfl (by decide)).2⟩

/-- C2 counterexample: the dispatch in `handle_callback` checks only the
`SSH_KEY` bit, never the queue.  With an EMPTY ssh-method queue and
`allowed = \x7bSSH_KEY, USER_PASS_PLAINTEXT\x7d`, the call still enters the SSH
trial and returns its `Err("no ssh handler present for authentication")`
from inside `handle_ssh_callback`; it does not fall through to a later
branch (the user-pass panic) nor produce any `ExhaustedError`. -/
theorem ssh_empty_queue_no_fallthrough_cex :
    ((AuthHandler.new () [] [] none none).handle_callback "url" none
        ⟨true, true, false, false, false, false, false⟩).1
      = CallResult.err "no ssh handler present for authentication" ∧
    ((AuthHandler.new () [] [] none none).handle_callback "url" none
        ⟨true, true, false, false, false, false, false⟩).1
      ≠ CallResult.panicked "not implemented: user-pass authentication implemented" ∧
    ((AuthHandler.new () [] [] none none).handle_callback "url" none
        ⟨true, true, false, false, false, false, false⟩).1
      ≠ CallResult.err "tried all possible credential kinds for authentication" := by
  refine ⟨rfl, ?_, ?_⟩ <;> decide

/-- C2 amended: when `allowed` lacks `USERNAME` but contains `SSH_KEY`,
`handle_callback` delegates to the SSH trial handler regardless of queue
emptiness; with an empty ssh-method queue the SSH trial itself returns
`Err("no ssh handler present for authentication")` — dispatch never falls
through to a later branch. -/
theorem ssh_dispatch_ignores_queue_emptiness {Cfg : Type} (h : AuthHandler Cfg)
    (url : GitURL) (uname : Option Username) (allowed : CredentialType) :
    allowed.username = false → allowed.ssh_key = true →
    h.handle_callback url uname allowed
        = (h.record_callback url uname).handle_ssh_callback ∧
    (h.ssh_trial_methods = [] →
      h.handle_callback url uname allowed
        = (.err "no ssh handler present for authentication",
           h.record_callback url uname)) := by
  intro hu hs
  have hd : h.handle_callback url uname allowed
      = (h.record_callback url uname).handle_ssh_callback := by
    rw [handle_callback_cases, if_neg (by simp [hu]), if_pos hs]
  refine ⟨hd, fun hemp => ?_⟩
  rw [hd, handle_ssh_callback_cases]
  have : (h.record_callback url uname).ssh_trial_methods = [] := by
    simpa [AuthHandler.record_callback] using hemp
  rw [this]

/-- Witness for the amended C2 at a concrete input: empty queue,
`allowed = \x7bSSH_KEY, USER_PASS_PLAINTEXT\x7d`. -/
theorem ssh_dispatch_ignores_queue_emptiness_witness :
    (AuthHandler.new () ["u"] [] none none).handle_callback "url" none
        ⟨true, true, false, false, false, false, false⟩
      = ((AuthHandler.new () ["u"] [] none none).record_callback "url" none).handle_ssh_callback ∧
    (AuthHandler.new () ["u"] [] none none).handle_callback "url" none
        ⟨true, true, false, false, false, false, false⟩
      = (.err "no ssh handler present for authentication",
         (AuthHandler.new () ["u"] [] none none).record_callback "url" none) :=
  ⟨(ssh_dispatch_ignores_queue_emptiness _ _ _ _ rfl rfl).1,
   (ssh_dispatch_ignores_queue_emptiness (AuthHandler.new () ["u"] [] none none)
      "url" none ⟨true, true, false, false, false, false, false⟩ rfl rfl).2 rfl⟩

/-- C3 counterexample: a call whose `allowed` contains `USER_PASS_PLAINTEXT`
but neither `USERNAME` nor `SSH_KEY` does not return a value at all: it hits
`unimplemented!("user-pass authentication implemented")` and panics — no
plaintext-credential-helper collaborator exists in the code to be invoked. -/
theorem user_pass_branch_panics_cex :
    ((AuthHandler.new () ["u"] [SSHTrialMethod.Agent] none none).handle_callback
        "url" (some "alice") ⟨true, false, false, false, false, false, false⟩).1
      = CallResult.panicked "not implemented: user-pass authentication implemented" := by
  rfl

/-- C3 amended: for every call where `allowed` contains `USER_PASS_PLAINTEXT`
and matches neither higher-priority branch, `handle_callback` panics via
`unimplemented!("user-pass authentication implemented")` after recording the
callback url and username; no plaintext helper is invoked and no result value
(success or failure) is returned. -/
theorem user_pass_branch_panics {Cfg : Type} (h : AuthHandler Cfg) (url : GitURL)
    (uname : Option Username) (allowed : CredentialType) :
    allowed.username = false → allowed.ssh_key = false →
    allowed.user_pass_plaintext = true →
    h.handle_callback url uname allowed
      = (.panicked "not implemented: user-pass authentication implemented",
         h.record_callback url uname) := by
  intro hu hs _hp
  rw [handle_callback_cases, if_neg (by simp [hu]), if_neg (by simp [hs])]

/-- Witness for the amended C3 at a concrete input. -/
theorem user_pass_branch_panics_witness :
    (AuthHandler.new () ["u"] [SSHTrialMethod.Agent] none none).handle_callback
        "url" none ⟨true, false, false, false, false, false, false⟩
      = (.panicked "not implemented: user-pass authentication implemented",
         (AuthHandler.new () ["u"] [SSHTrialMethod.Agent] none none).record_callback
           "url" none) :=
  user_pass_branch_panics _ _ _ _ rfl rfl rfl

/-- C4 counterexample: the code has no `tried_default_credential` flag and no
default-credential branch.  Two consecutive calls on the same instance with
`allowed = \x7bDEFAULT\x7d` both panic at
`unimplemented!("user-pass authentication implemented")`: the first does not
attempt any default collaborator and the second does not fail with
`ExhaustedError`. -/
theorem default_only_calls_panic_cex :
    ((AuthHandler.new () ["u"] [SSHTrialMethod.Agent] none none).handle_callback
        "url" none ⟨false, false, false, true, false, false, false⟩).1
      = CallResult.panicked "not implemented: user-pass authentication implemented" ∧
    ((((AuthHandler.new () ["u"] [SSHTrialMethod.Agent] none none).handle_callback
          "url" none ⟨false, false, false, true, false, false, false⟩).2).handle_callback
        "url" none ⟨false, false, false, true, false, false, false⟩).1
      = CallResult.panicked "not implemented: user-pass authentication implemented" ∧
    ((((AuthHandler.new () ["u"] [SSHTrialMethod.Agent] none none).handle_callback
          "url" none ⟨false, false, false, true, false, false, false⟩).2).handle_callback
        "url" none ⟨false, false, false, true, false, false, false⟩).1
      ≠ CallResult.err "tried all possible credential kinds for authentication" := by
  refine ⟨rfl, rfl, ?_⟩
  decide

/-- C4 amended: there is no default-credential sub-strategy and no
`tried_default_credential` flag in the code; every call whose `allowed`
contains `DEFAULT` but neither `USERNAME` nor `SSH_KEY` panics via
`unimplemented!`, on the first and on every subsequent such call alike. -/
theorem default_only_calls_panic {Cfg : Type} (h : AuthHandler Cfg) (url : GitURL)
    (uname : Option Username) (allowed : CredentialType) :
    allowed.username = false → allowed.ssh_key = false →
    allowed.ssh_default = true →
    (h.handle_callback url uname allowed).1
      = CallResult.panicked "not implemented: user-pass authentication implemented" ∧
    (((h.handle_callback url uname allowed).2).handle_callback url uname allowed).1
      = CallResult.panicked "not implemented: user-pass authentication implemented" := by
  intro hu hs _hd
  have key : ∀ h' : AuthHandler Cfg, (h'.handle_callback url uname allowed).1
      = CallResult.panicked "not implemented: user-pass authentication implemented" := by
    intro h'
    rw [handle_callback_cases, if_neg (by simp [hu]), if_neg (by simp [hs])]
  exact ⟨key h, key _⟩

/-- Witness for the amended C4 at a concrete input. -/
theorem default_only_calls_panic_witness :
    ((AuthHandler.new () [] [] none none).handle_callback
        "url" none ⟨false, false, false, true, false, false, false⟩).1
      = CallResult.panicked "not implemented: user-pass authentication implemented" ∧
    ((((AuthHandler.new () [] [] none none).handle_callback
          "url" none ⟨false, false, false, true, false, false, false⟩).2).handle_callback
        "url" none ⟨false, false, false, true, false, false, false⟩).1
      = CallResult.panicked "not implemented: user-pass authentication implemented" :=
  default_only_calls_panic _ _ _ _ rfl rfl rfl

/-- C5: every `USERNAME` call pops the front of the username queue and
returns a username-only credential for exactly that value; with an empty
queue it fails with `Err("tried all possible usernames for the callback")`.
Consequently, for a handler built by `default_with_config` with a resolvable
environment user name, the first three `USERNAME` calls yield credentials for
`""`, `"git"` and the environment-derived name in that order, and a fourth
fails with the usernames-exhausted error. -/
theorem username_trial_contract {Cfg : Type} (cfg : Cfg) (h : AuthHandler Cfg)
    (url : GitURL) (uname : Option Username) (allowed : CredentialType)
    (env_username : Username) :
    allowed.username = true →
    (∀ u rest, h.usernames = u :: rest →
      h.handle_callback url uname allowed
        = (.ok (.username u),
           { h with usernames := rest, callback_url := some url,
                    callback_username := uname })) ∧
    (h.usernames = [] →
      h.handle_callback url uname allowed
        = (.err "tried all possible usernames for the callback",
           h.record_callback url uname)) ∧
    ((AuthHandler.default_with_config cfg (some env_username)).handle_callback
        url uname allowed).1 = .ok (.username "") ∧
    (((AuthHandler.default_with_config cfg (some env_username)).handle_callback
        url uname allowed).2.handle_callback url uname allowed).1
      = .ok (.username "git") ∧
    ((((AuthHandler.default_with_config cfg (some env_username)).handle_callback
        url uname allowed).2.handle_callback url uname allowed).2.handle_callback
        url uname allowed).1 = .ok (.username env_username) ∧
    (((((AuthHandler.default_with_config cfg (some env_username)).handle_callback
        url uname allowed).2.handle_callback url uname allowed).2.handle_callback
        url uname allowed).2.handle_callback url uname allowed).1
      = .err "tried all possible usernames for the callback" := by
  intro hu
  have pop : ∀ (g : AuthHandler Cfg) (u : Username) (rest : List Username),
      g.usernames = u :: rest →
      g.handle_callback url uname allowed
        = (.ok (.username u),
           { g with usernames := rest, callback_url := some url,
                    callback_username := uname }) := by
    intro g u rest hl
    rw [handle_callback_cases, if_pos hu, handle_username_callback_cases]
    simp [AuthHandler.record_callback, hl]
  have emp : ∀ g : AuthHandler Cfg, g.usernames = [] →
      g.handle_callback url uname allowed
        = (.err "tried all possible usernames for the callback",
           g.record_callback url uname) := by
    intro g hl
    rw [handle_callback_cases, if_pos hu, handle_username_callback_cases]
    simp [AuthHandler.record_callback, hl]
  refine ⟨pop h, emp h, ?_⟩
  rw [pop (AuthHandler.default_with_config cfg (some env_username)) ""
        ["git", env_username]
        (by simp [AuthHandler.default_with_config, AuthHandler.new,
              USERNAME_EMPTY, USERNAME_GIT])]
  rw [pop _ "git" [env_username] rfl, pop _ env_username [] rfl, emp _ rfl]
  exact ⟨rfl, rfl, rfl, rfl⟩

/-- Witness for C5 at concrete inputs: default seeding with environment user
`"kaya"`, four `USERNAME` calls. -/
theorem username_trial_contract_witness :
    ((AuthHandler.default_with_config () (some "kaya")).handle_callback
        "url" none ⟨false, false, false, false, false, true, false⟩).1
      = .ok (.username "") ∧
    (((AuthHandler.default_with_config () (some "kaya")).handle_callback
        "url" none ⟨false, false, false, false, false, true, false⟩).2.handle_callback
        "url" none ⟨false, false, false, false, false, true, false⟩).1
      = .ok (.username "git") ∧
    ((((AuthHandler.default_with_config () (some "kaya")).handle_callback
        "url" none ⟨false, false, false, false, false, true, false⟩).2.handle_callback
        "url" none ⟨false, false, false, false, false, true, false⟩).2.handle_callback
        "url" none ⟨false, false, false, false, false, true, false⟩).1
      = .ok (.username "kaya") ∧
    (((((AuthHandler.default_with_config () (some "kaya")).handle_callback
        "url" none ⟨false, false, false, false, false, true, false⟩).2.handle_callback
        "url" none ⟨false, false, false, false, false, true, false⟩).2.handle_callback
        "url" none ⟨false, false, false, false, false, true, false⟩).2.handle_callback
        "url" none ⟨false, false, false, false, false, true, false⟩).1
      = .err "tried all possible usernames for the callback" :=
  (username_trial_contract ()
      (AuthHandler.default_with_config () (some "kaya")) "url" none
      ⟨false, false, false, false, false, true, false⟩ "kaya" rfl).2.2

/-- C6: an SSH-trial call that pops the `Agent` variant fails with
`Err("username must be provided with SSH_KEY callback")` when no username
hint was recorded by the current call, and otherwise returns the agent
collaborator's credential for exactly the recorded username. -/
theorem agent_trial_username_requirement {Cfg : Type} (h : AuthHandler Cfg)
    (url : GitURL) (allowed : CredentialType) (rest : List SSHTrialMethod) :
    allowed.username = false → allowed.ssh_key = true →
    h.ssh_trial_methods = SSHTrialMethod.Agent :: rest →
    h.handle_callback url none allowed
      = (.err "username must be provided with SSH_KEY callback",
         { h with ssh_trial_methods := rest, callback_url := some url,
                  callback_username := none }) ∧
    (∀ u : Username, h.handle_callback url (some u) allowed
      = (.ok (.ssh_key_from_agent u),
         { h with ssh_trial_methods := rest, callback_url := some url,
                  callback_username := some u })) := by
  intro hu hs hl
  constructor
  · rw [handle_callback_cases, if_neg (by simp [hu]), if_pos hs,
      handle_ssh_callback_cases]
    simp [AuthHandler.record_callback, hl, SSHTrialMethod.handle_callback]
  · intro u
    rw [handle_callback_cases, if_neg (by simp [hu]), if_pos hs,
      handle_ssh_callback_cases]
    simp [AuthHandler.record_callback, hl, SSHTrialMethod.handle_callback]

/-- Witness for C6 at a concrete input: SSH queue `[Agent]`, one call without
and one with a username hint. -/
theorem agent_trial_username_requirement_witness :
    (AuthHandler.new () [] [SSHTrialMethod.Agent] none none).handle_callback
        "url" none ⟨false, true, false, false, false, false, false⟩
      = (.err "username must be provided with SSH_KEY callback",
         AuthHandler.new () [] [] (some "url") none) ∧
    (AuthHandler.new () [] [SSHTrialMethod.Agent] none none).handle_callback
        "url" (some "alice") ⟨false, true, false, false, false, false, false⟩
      = (.ok (.ssh_key_from_agent "alice"),
         AuthHandler.new () [] [] (some "url") (some "alice")) :=
  ⟨(agent_trial_username_requirement (AuthHandler.new () []
      [SSHTrialMethod.Agent] none none) "url"
      ⟨false, true, false, false, false, false, false⟩ [] rfl rfl rfl).1,
   (agent_trial_username_requirement (AuthHandler.new () []
      [SSHTrialMethod.Agent] none none) "url"
      ⟨false, true, false, false, false, false, false⟩ [] rfl rfl rfl).2 "alice"⟩

/-- C7 counterexample: popping the `Host` (or `File`) variant does not return
any failure value to the caller — the call panics (Rust `unimplemented!`),
with the messages `not implemented: SSH trial with host is not implemented`
and `not implemented: SSH trial with file is not implemented` respectively. -/
theorem unimplemented_ssh_methods_panic_cex :
    ((AuthHandler.new () [] [SSHTrialMethod.Host (HostSSHContext.new "h")]
        none none).handle_callback "url" (some "alice")
        ⟨false, true, false, false, false, false, false⟩).1
      = CallResult.panicked "not implemented: SSH trial with host is not implemented" ∧
    ((AuthHandler.new () [] [SSHTrialMethod.File (FileSSHContext.new ["k"] "pw")]
        none none).handle_callback "url" (some "alice")
        ⟨false, true, false, false, false, false, false⟩).1
      = CallResult.panicked "not implemented: SSH trial with file is not implemented" :=
  ⟨rfl, rfl⟩

/-- C7 amended: an SSH-trial call that pops the `Host` or `File` variant
panics via `unimplemented!` with a distinct message naming the missing
variant, rather than returning a failure value (or silently no-opping). -/
theorem unimplemented_ssh_methods_panic {Cfg : Type} (h : AuthHandler Cfg)
    (url : GitURL) (uname : Option Username) (allowed : CredentialType) :
    allowed.username = false → allowed.ssh_key = true →
    (∀ ctx rest, h.ssh_trial_methods = SSHTrialMethod.Host ctx :: rest →
      (h.handle_callback url uname allowed).1
        = CallResult.panicked "not implemented: SSH trial with host is not implemented") ∧
    (∀ ctx rest, h.ssh_trial_methods = SSHTrialMethod.File ctx :: rest →
      (h.handle_callback url uname allowed).1
        = CallResult.panicked "not implemented: SSH trial with file is not implemented") := by
  intro hu hs
  constructor <;> intro ctx rest hl <;>
    rw [handle_callback_cases, if_neg (by simp [hu]), if_pos hs,
      handle_ssh_callback_cases] <;>
    simp [AuthHandler.record_callback, hl, SSHTrialMethod.handle_callback]

/-- Witness for the amended C7 at concrete inputs. -/
theorem unimplemented_ssh_methods_panic_witness :
    ((AuthHandler.new () ["u"] [SSHTrialMethod.Host (HostSSHContext.new "h")]
        none none).handle_callback "url" none
        ⟨false, true, false, false, false, false, false⟩).1
      = CallResult.panicked "not implemented: SSH trial with host is not implemented" ∧
    ((AuthHandler.new () ["u"] [SSHTrialMethod.File (FileSSHContext.new [] "pw")]
        none none).handle_callback "url" none
        ⟨false, true, false, false, false, false, false⟩).1
      = CallResult.panicked "not implemented: SSH trial with file is not implemented" :=
  ⟨(unimplemented_ssh_methods_panic (AuthHandler.new () ["u"]
      [SSHTrialMethod.Host (HostSSHContext.new "h")] none none) "url" none
      ⟨false, true, false, false, false, false, false⟩ rfl rfl).1
      (HostSSHContext.new "h") [] rfl,
   (unimplemented_ssh_methods_panic (AuthHandler.new () ["u"]
      [SSHTrialMethod.File (FileSSHContext.new [] "pw")] none none) "url" none
      ⟨false, true, false, false, false, false, false⟩ rfl rfl).2
      (FileSSHContext.new [] "pw") [] rfl⟩

/-- C8: every `handle_callback` invocation overwrites the recorded username
hint (and url) with that invocation's arguments — including overwriting the
hint to absent; an agent trial whose call recorded no hint fails with the
missing-username error, and a call that supplies a hint with the SSH queue
fronted by `Agent` succeeds via the agent collaborator with that hint. -/
theorem callback_username_overwritten {Cfg : Type} (h : AuthHandler Cfg)
    (url : GitURL) (uname : Option Username) (allowed : CredentialType) :
    ((h.handle_callback url uname allowed).2.callback_username = uname ∧
     (h.handle_callback url uname allowed).2.callback_url = some url) ∧
    (∀ rest, allowed.username = false → allowed.ssh_key = true →
      h.ssh_trial_methods = SSHTrialMethod.Agent :: rest →
      (h.handle_callback url none allowed).1
          = CallResult.err "username must be provided with SSH_KEY callback" ∧
      ∀ u : Username, (h.handle_callback url (some u) allowed).1
          = CallResult.ok (Cred.ssh_key_from_agent u)) := by
  constructor
  · rw [handle_callback_cases]
    split
    · rw [handle_username_callback_cases]
      cases hl : h.usernames <;> simp [AuthHandler.record_callback, hl]
    split
    · rw [handle_ssh_callback_cases]
      cases hl : h.ssh_trial_methods <;> simp [AuthHandler.record_callback, hl]
    · simp [AuthHandler.record_callback]
  · intro rest hu hs hl
    constructor
    · rw [handle_callback_cases, if_neg (by simp [hu]), if_pos hs,
        handle_ssh_callback_cases]
      simp [AuthHandler.record_callback, hl, SSHTrialMethod.handle_callback]
    · intro u
      rw [handle_callback_cases, if_neg (by simp [hu]), if_pos hs,
        handle_ssh_callback_cases]
      simp [AuthHandler.record_callback, hl, SSHTrialMethod.handle_callback]

/-- Witness for C8 at concrete inputs: the hint is overwritten to absent, and
the agent trial fails without a hint and succeeds with one. -/
theorem callback_username_overwritten_witness :
    ((AuthHandler.new () [] [SSHTrialMethod.Agent] none (some "old")).handle_callback
        "url" none ⟨false, true, false, false, false, false, false⟩).2.callback_username
      = none ∧
    ((AuthHandler.new () [] [SSHTrialMethod.Agent] none (some "old")).handle_callback
        "url" none ⟨false, true, false, false, false, false, false⟩).1
      = CallResult.err "username must be provided with SSH_KEY callback" ∧
    ((AuthHandler.new () [] [SSHTrialMethod.Agent] none (some "old")).handle_callback
        "url" (some "alice") ⟨false, true, false, false, false, false, false⟩).1
      = CallResult.ok (Cred.ssh_key_from_agent "alice") :=
  ⟨((callback_username_overwritten (AuthHandler.new () [] [SSHTrialMethod.Agent]
      none (some "old")) "url" none
      ⟨false, true, false, false, false, false, false⟩).1).1,
   ((callback_username_overwritten (AuthHandler.new () [] [SSHTrialMethod.Agent]
      none (some "old")) "url" none
      ⟨false, true, false, false, false, false, false⟩).2 [] rfl rfl rfl).1,
   ((callback_username_overwritten (AuthHandler.new () [] [SSHTrialMethod.Agent]
      none (some "old")) "url" (some "alice")
      ⟨false, true, false, false, false, false, false⟩).2 [] rfl rfl rfl).2 "alice"⟩

/-- C9: both trial queues are strictly drained: every `handle_callback` call
removes at most one element in total from the two queues, always from the
front, and never inserts anything — each resulting queue is a drop of the
original by the stated amount. -/
theorem queues_strictly_drained {Cfg : Type} (h : AuthHandler Cfg)
    (url : GitURL) (uname : Option Username) (allowed : CredentialType) :
    ∃ a b : Nat, a + b ≤ 1 ∧
      (h.handle_callback url uname allowed).2.usernames = h.usernames.drop a ∧
      (h.handle_callback url uname allowed).2.ssh_trial_methods
        = h.ssh_trial_methods.drop b := by
  rw [handle_callback_cases]
  split
  · rw [handle_username_callback_cases]
    cases hl : h.usernames with
    | nil => exact ⟨0, 0, by simp, by simp [AuthHandler.record_callback, hl],
        by simp [AuthHandler.record_callback, hl]⟩
    | cons u rest => exact ⟨1, 0, by simp, by simp [AuthHandler.record_callback, hl],
        by simp [AuthHandler.record_callback, hl]⟩
  split
  · rw [handle_ssh_callback_cases]
    cases hl : h.ssh_trial_methods with
    | nil => exact ⟨0, 0, by simp, by simp [AuthHandler.record_callback, hl],
        by simp [AuthHandler.record_callback, hl]⟩
    | cons m rest => exact ⟨0, 1, by simp, by simp [AuthHandler.record_callback, hl],
        by simp [AuthHandler.record_callback, hl]⟩
  · exact ⟨0, 0, by simp, by simp [AuthHandler.record_callback],
      by simp [AuthHandler.record_callback]⟩

/-- C10: each `handle_callback` call only mutates the state of the branch it
dispatches to: a `USERNAME` call leaves the SSH method queue unchanged, a
non-`USERNAME` call leaves the username queue unchanged (and when neither
`USERNAME` nor `SSH_KEY` matches, both queues are unchanged); the config
handle is never modified; the callback url and username fields are the only
other fields written, on every call. -/
theorem frame_effects {Cfg : Type} (h : AuthHandler Cfg) (url : GitURL)
    (uname : Option Username) (allowed : CredentialType) :
    (h.handle_callback url uname allowed).2.config = h.config ∧
    (h.handle_callback url uname allowed).2.callback_url = some url ∧
    (h.handle_callback url uname allowed).2.callback_username = uname ∧
    (allowed.username = true →
      (h.handle_callback url uname allowed).2.ssh_trial_methods
        = h.ssh_trial_methods) ∧
    (allowed.username = false →
      (h.handle_callback url uname allowed).2.usernames = h.usernames) ∧
    (allowed.username = false → allowed.ssh_key = false →
      (h.handle_callback url uname allowed).2.ssh_trial_methods
        = h.ssh_trial_methods) := by
  rw [handle_callback_cases]
  by_cases hu : allowed.username
  · rw [if_pos hu, handle_username_callback_cases]
    cases hl : h.usernames <;>
      simp [AuthHandler.record_callback, hl, hu]
  · rw [if_neg (by simp [Bool.not_eq_true] at hu; simp [hu])]
    by_cases hs : allowed.ssh_key
    · rw [if_pos hs, handle_ssh_callback_cases]
      cases hl : h.ssh_trial_methods <;>
        simp_all [AuthHandler.record_callback, hl]
    · rw [if_neg hs]
      simp_all [AuthHandler.record_callback]

/-- Witness for C10 at concrete inputs: one `USERNAME` call and one
`SSH_KEY`-only call, each leaving the other branch's queue and the config
untouched while recording url and username. -/
theorem frame_effects_witness :
    ((AuthHandler.new 7 ["u"] [SSHTrialMethod.Agent] none none).handle_callback
        "url" (some "x") ⟨false, false, false, false, false, true, false⟩).2.config
      = 7 ∧
    ((AuthHandler.new 7 ["u"] [SSHTrialMethod.Agent] none none).handle_callback
        "url" (some "x") ⟨false, false, false, false, false, true, false⟩).2.ssh_trial_methods
      = [SSHTrialMethod.Agent] ∧
    ((AuthHandler.new 7 ["u"] [SSHTrialMethod.Agent] none none).handle_callback
        "url" (some "x") ⟨false, true, false, false, false, false, false⟩).2.usernames
      = ["u"] ∧
    ((AuthHandler.new 7 ["u"] [SSHTrialMethod.Agent] none none).handle_callback
        "url" (some "x") ⟨false, false, false, true, false, false, false⟩).2.ssh_trial_methods
      = [SSHTrialMethod.Agent] :=
  ⟨(frame_effects (AuthHandler.new 7 ["u"] [SSHTrialMethod.Agent] none none)
      "url" (some "x") ⟨false, false, false, false, false, true, false⟩).1,
   (frame_effects (AuthHandler.new 7 ["u"] [SSHTrialMethod.Agent] none none)
      "url" (some "x") ⟨false, false, false, false, false, true, false⟩).2.2.2.1 rfl,
   (frame_effects (AuthHandler.new 7 ["u"] [SSHTrialMethod.Agent] none none)
      "url" (some "x") ⟨false, true, false, false, false, false, false⟩).2.2.2.2.1 rfl,
   (frame_effects (AuthHandler.new 7 ["u"] [SSHTrialMethod.Agent] none none)
      "url" (some "x") ⟨false, false, false, true, false, false, false⟩).2.2.2.2.2
      rfl rfl⟩

end Git2Auth
